import Mathlib

/-!
Verification of the voxloom conversational-support backend against its
specification.  The Python source is shallowly embedded: pure functions
become Lean functions, the database becomes an explicit `Store` record
threaded through the handlers, and the external nondeterminism of a
request (generated UUIDs, timestamps, stage failures, commit outcomes,
the CRM dispatch network outcome) is captured by explicit environment
records, so that every handler is a total function on those inputs.
-/

namespace Voxloom

/-! ## Python string primitives (scoped to the characters the code uses)

Python `str.strip()` removes the characters below (the ASCII whitespace
set; the full Unicode set is irrelevant to the fixed keyword rules).
`str.lower()` is modelled by `Char.toLower`, which agrees with Python on
ASCII, and `needle in hay` by list-infix containment on the character
lists. -/

def pyIsSpace (c : Char) : Bool :=
  c = ' ' || c = '\t' || c = '\n' || c = '\r' || c = '\x0b' || c = '\x0c'

def pyLower (l : List Char) : List Char :=
  l.map Char.toLower

def pyStrip (l : List Char) : List Char :=
  ((l.dropWhile pyIsSpace).reverse.dropWhile pyIsSpace).reverse

/-- Python `needle in hay` on strings, as list-infix containment. -/
def pyIn (needle hay : List Char) : Bool :=
  decide (needle <:+: hay)

/-! ## The responder (`app/services/ai_pipeline.py`, `generate_reply`)

The four fixed reply messages, verbatim from the source. -/

def msgAskRepeat : String :=
  "I couldn\x27t clearly understand the audio. Could you please repeat your question about your bill or refund?"

def msgRefund : String :=
  "I understand you’d like a refund for your recent bill. I’ve marked this as a refund request with high priority. You’ll receive an update on the refund status within 3–5 business days."

def msgBilling : String :=
  "I can help explain your bill. Your latest invoice usually includes your base plan, taxes, and any extra usage or late fees. If you’d like, I can break down the charges for the last billing cycle."

def msgFallback : String :=
  "Thanks for your question. I’ve logged your request and linked it to your account. Someone from the billing team will review it and get back to you soon."

/-- `generate_reply` from `app/services/ai_pipeline.py`: the guard is
`not user_text or user_text.strip() == ""`, then the keyword rules run
on `text = user_text.lower().strip()` in source order. -/
def generate_reply (user_text : String) : String :=
  if user_text = "" ∨ pyStrip user_text.data = [] then
    msgAskRepeat
  else
    let text := pyStrip (pyLower user_text.data)
    if pyIn "refund".data text || pyIn "money back".data text then
      msgRefund
    else if pyIn "bill".data text || pyIn "charge".data text || pyIn "charges".data text ||
        pyIn "amount".data text || pyIn "invoice".data text || pyIn "fees".data text ||
        pyIn "fee".data text then
      msgBilling
    else
      msgFallback

/-- The billing keywords in the order both the source and the spec list
them. -/
def billingKeywords : List String :=
  ["bill", "charge", "charges", "amount", "invoice", "fees", "fee"]

/-- Modelled from the spec wording of §4.2 / claim C2: empty or
whitespace-only input yields the ask-to-repeat message; otherwise the
lowercased text is tested for "refund" / "money back", then for the
billing keywords, else the fallback message.  (The spec tests
containment in the lowercased text; the source additionally strips it,
which is proved equivalent below.) -/
def replySpec (user_text : String) : String :=
  if pyStrip user_text.data = [] then
    msgAskRepeat
  else if pyIn "refund".data (pyLower user_text.data) ||
      pyIn "money back".data (pyLower user_text.data) then
    msgRefund
  else if billingKeywords.any (fun kw => pyIn kw.data (pyLower user_text.data)) then
    msgBilling
  else
    msgFallback

/-! ## Data model (`app/models/models.py`)

The five SQLModel tables become plain records; `created_at` is the ISO
timestamp string the code stores.  JSON payload values are modelled by
`JVal`, wide enough for every value the handlers construct or test. -/

inductive JVal where
  | jnull : JVal
  | jstr : String → JVal
  | jint : Int → JVal
  | jbool : Bool → JVal
  | jnum : Rat → JVal
deriving DecidableEq

/-- Python truthiness on the modelled JSON values. -/
def pyTruthy : JVal → Bool
  | .jnull => false
  | .jstr s => !(s == "")
  | .jint n => !(n == 0)
  | .jbool b => b
  | .jnum q => !(q == 0)

/-- Python `dict.get`: first binding of the key, if any. -/
def jget (rec : List (String × JVal)) (f : String) : Option JVal :=
  (rec.find? (fun kv => kv.1 == f)).map (fun kv => kv.2)

structure SessionRow where
  id : String
  customer_id : String
  language : String
  channel : String
  persona : Option String
  created_at : String
deriving DecidableEq

structure MessageRow where
  id : String
  session_id : String
  direction : String
  type : String
  text : Option String
  audio_path_or_b64 : Option String
  transcript : Option String
  reply_text : Option String
  reply_audio_path_or_b64 : Option String
  created_at : String
deriving DecidableEq

structure ModelCallRow where
  id : String
  message_id : Option String
  model_type : Option String
  model_id : Option String
  duration_ms : Option Nat
  raw_response_snippet : Option String
  created_at : String
deriving DecidableEq

/-- The MCP payload (`MCPPayload` pydantic model in `app/api/v1/tools.py`). -/
structure MCPPayload where
  session_id : String
  customer_id : Option String
  llm_response : Option String
  scenario : Option String
  crm_record : Option (List (String × JVal))
  meta : Option (List (String × JVal))
deriving DecidableEq

structure CRMRecordRow where
  id : String
  session_id : Option String
  customer_id : Option String
  scenario : Option String
  record_json : Option (List (String × JVal))
  status : Option String
  created_at : String
deriving DecidableEq

/-- `payload_json` stores `payload.dict()`; we keep the structured payload. -/
structure ToolCallRow where
  id : String
  session_id : Option String
  payload_json : Option MCPPayload
  status : Option String
  created_at : String
deriving DecidableEq

/-- The persistence store: the five tables. -/
structure Store where
  sessions : List SessionRow
  messages : List MessageRow
  model_calls : List ModelCallRow
  crm_records : List CRMRecordRow
  tool_calls : List ToolCallRow
deriving DecidableEq

/-- Outcome of one `db.commit()` attempt, supplied as an environment
input (the storage engine is an external collaborator). -/
inductive CommitOutcome where
  | ok : CommitOutcome
  | fail : String → CommitOutcome
deriving DecidableEq

/-! ## CRM intake handler (`app/api/v1/tools.py`, `mcp_handler`) -/

/-- Errors `mcp_handler` reports (each an `HTTPException` in the code:
400 / 400 / 404 / 500 respectively). -/
inductive ToolsError where
  | scenarioRequired : ToolsError
  | missingFields : List String → ToolsError
  | sessionNotFound : ToolsError
  | dbError : String → ToolsError
deriving DecidableEq

structure MCPResult where
  ok : Bool
  status : Option String
  crm_record_id : String
  tool_call_id : String
deriving DecidableEq

/-- Per-request nondeterminism of `mcp_handler`: generated ids and
timestamps and the outcomes of the two commit attempts. -/
structure MCPEnv where
  crm_id : String
  tool_id : String
  crm_created_at : String
  tool_created_at : String
  primary_commit : CommitOutcome
  secondary_commit : CommitOutcome
deriving DecidableEq

/-- `if not payload.scenario` — falsy when absent or the empty string. -/
def scenarioFalsy : Option String → Bool
  | none => true
  | some s => s == ""

def requiredBillingFields : List String :=
  ["name", "phone", "account_id", "query", "intent", "priority"]

/-- `not rec.get(f)` — a field counts as present only when its value is
truthy; an absent key yields `None`, which is falsy. -/
def fieldTruthy (rec : List (String × JVal)) (f : String) : Bool :=
  match jget rec f with
  | none => false
  | some v => pyTruthy v

/-- `[f for f in [...] if not rec.get(f)]` from `mcp_handler`. -/
def missingFieldsOf (rec : List (String × JVal)) : List String :=
  requiredBillingFields.filter (fun f => !(fieldTruthy rec f))

/-- The CRMRecord row `mcp_handler` constructs on valid input. -/
def crmRowOf (payload : MCPPayload) (env : MCPEnv) (session_row : SessionRow) : CRMRecordRow :=
  { id := env.crm_id
    session_id := some payload.session_id
    customer_id := some (match payload.customer_id with
      | some c => if c = "" then session_row.customer_id else c
      | none => session_row.customer_id)
    scenario := payload.scenario
    record_json := some (payload.crm_record.getD [])
    status := some "pending"
    created_at := env.crm_created_at }

/-- The ToolCall row `mcp_handler` constructs on valid input. -/
def toolRowOf (payload : MCPPayload) (env : MCPEnv) : ToolCallRow :=
  { id := env.tool_id
    session_id := some payload.session_id
    payload_json := some payload
    status := some "accepted"
    created_at := env.tool_created_at }

/-- `mcp_handler` from `app/api/v1/tools.py`.  Validation runs before
the session lookup; on primary-commit failure the handler sets the tool
row status to "failed", attempts a best-effort second commit whose own
failure is swallowed by a bare `except: pass`, and re-raises the
original storage error as an HTTP 500 with detail `"DB error: " + e`.
(A successful second commit flushes both rows still pending in the
SQLAlchemy session, with the tool row flipped to "failed".) -/
def mcp_handler (payload : MCPPayload) (env : MCPEnv) (store : Store) :
    Except ToolsError MCPResult × Store :=
  if scenarioFalsy payload.scenario then
    (.error .scenarioRequired, store)
  else if payload.scenario = some "billing_query" ∧
      missingFieldsOf (payload.crm_record.getD []) ≠ [] then
    (.error (.missingFields (missingFieldsOf (payload.crm_record.getD []))), store)
  else
    match store.sessions.find? (fun s => s.id == payload.session_id) with
    | none => (.error .sessionNotFound, store)
    | some session_row =>
      let crm_row := crmRowOf payload env session_row
      let tool_row := toolRowOf payload env
      match env.primary_commit with
      | .ok =>
        (.ok { ok := true, status := some "accepted",
               crm_record_id := env.crm_id, tool_call_id := env.tool_id },
         { store with crm_records := store.crm_records ++ [crm_row],
                      tool_calls := store.tool_calls ++ [tool_row] })
      | .fail e =>
        let tool_row_failed := { tool_row with status := some "failed" }
        let store2 :=
          match env.secondary_commit with
          | .ok => { store with crm_records := store.crm_records ++ [crm_row],
                                tool_calls := store.tool_calls ++ [tool_row_failed] }
          | .fail _ => store
        (.error (.dbError ("DB error: " ++ e)), store2)

/-! ## Speech stages (`app/services/ai_pipeline.py`, `run_asr` / `run_tts`)

The stages are stubs touching the filesystem; their externally visible
behaviour is captured by an abstract audio source plus an optional
raised-exception input (the code catches any exception and maps it to
the fallback value). -/

/-- The ASR input `post_message` selects: either the media file it just
wrote (which exists, with the decoded byte size) or raw bytes of a given
length. -/
inductive AsrSource where
  | path : String → Nat → AsrSource
  | bytes : Nat → AsrSource
deriving DecidableEq

/-- The stub body of `run_asr`: a nonempty source yields the pending
placeholder transcript, an empty one the empty-transcript sentinel. -/
def run_asr_stub : AsrSource → String
  | .path _ size => if size > 0 then "<transcript_from_asr_pending_real_model>" else "<empty_transcript>"
  | .bytes len => if len > 0 then "<transcript_from_asr_pending_real_model>" else "<empty_transcript>"

/-- `run_asr`: the whole body runs inside `try/except`, so any raised
exception is caught and mapped to the `"<empty_transcript>"` sentinel. -/
def run_asr (source : AsrSource) (raised : Option String) : String :=
  match raised with
  | some _ => "<empty_transcript>"
  | none => run_asr_stub source

/-- `run_tts`: writes `media/reply_{message_id}.wav` and returns the
path; any exception is caught and `None` is returned. -/
def run_tts (message_id : String) (raised : Option String) : Option String :=
  match raised with
  | some _ => none
  | none => some ("media/reply_" ++ message_id ++ ".wav")

/-! ## Message pipeline (`app/api/v1/sessions.py`, `post_message`) -/

/-- A supplied base64 audio payload, abstracted to whether
`base64.b64decode` succeeds on it and, if so, how many bytes it
decodes to. -/
structure B64 where
  valid : Bool
  len : Nat
deriving DecidableEq

/-- The request body (`MessageReq` pydantic model). -/
structure MessageReq where
  type : String
  text : Option String
  audio_base64 : Option B64
  mime : Option String
deriving DecidableEq

/-- Errors crossing `post_message`'s boundary.  `validation` and
`notFound` are the `HTTPException`s the code raises explicitly;
`unhandled` is an exception that propagates out of the handler uncaught
(the code has no try/except around the commit or the inline base64
decode). -/
inductive ApiError where
  | validation : String → ApiError
  | notFound : String → ApiError
  | unhandled : String → ApiError
deriving DecidableEq

/-- An error is structured when it is raised as an `HTTPException`
carrying a status code and a human-readable detail; an `unhandled`
exception propagating out of the handler is not. -/
def ApiError.isStructured : ApiError → Bool
  | .validation _ => true
  | .notFound _ => true
  | .unhandled _ => false

/-- The summary dict `post_message` returns on success. -/
structure PostResult where
  message_id : String
  session_id : String
  created_at : String
  incoming_text : Option String
  transcript : Option String
  reply_text : Option String
  reply_audio_path : Option String
deriving DecidableEq

/-- The outcome of the step-6 CRM dispatch network call: either the
HTTP request itself fails (connect error / timeout — caught and
logged), or it is delivered to the in-process `mcp_handler` with that
handler's own environment. -/
inductive Dispatch where
  | netFail : String → Dispatch
  | delivered : MCPEnv → Dispatch
deriving DecidableEq

/-- Per-request nondeterminism of `post_message`: generated ids and
timestamps, the media-write outcome, the stage exception inputs, the
step-5 commit outcome, and the CRM dispatch outcome. -/
structure PostEnv where
  message_id : String
  created_at : String
  audio_write_ok : Bool
  asr_raised : Option String
  asr_call_id : String
  asr_call_created_at : String
  asr_duration_ms : Nat
  llm_call_id : String
  llm_call_created_at : String
  llm_duration_ms : Nat
  tts_raised : Option String
  tts_call_id : String
  tts_call_created_at : String
  tts_duration_ms : Nat
  commit : CommitOutcome
  dispatch : Dispatch
deriving DecidableEq

/-- `if msg.mime and "mp3" in msg.mime.lower(): ext = ".mp3"`. -/
def extOf (mime : Option String) : String :=
  match mime with
  | some m => if m ≠ "" ∧ pyIn "mp3".data (pyLower m.data) then ".mp3" else ".wav"
  | none => ".wav"

/-- The ModelCall row logged for the ASR stage. -/
def asrCallRowOf (env : PostEnv) (transcript : String) : ModelCallRow :=
  { id := env.asr_call_id
    message_id := some env.message_id
    model_type := some "ASR"
    model_id := some "Systran/faster-whisper-tiny.en"
    duration_ms := some env.asr_duration_ms
    raw_response_snippet := some (String.take transcript 200)
    created_at := env.asr_call_created_at }

/-- The ModelCall row logged for the LLM (reply-generation) stage. -/
def llmCallRowOf (env : PostEnv) (llm_reply : String) : ModelCallRow :=
  { id := env.llm_call_id
    message_id := some env.message_id
    model_type := some "LLM"
    model_id := some "rule-based-generate-reply-v1"
    duration_ms := some env.llm_duration_ms
    raw_response_snippet := some (String.take llm_reply 200)
    created_at := env.llm_call_created_at }

/-- The ModelCall row logged for the TTS stage (even when the stage
returned no path). -/
def ttsCallRowOf (env : PostEnv) (tts_path : Option String) : ModelCallRow :=
  { id := env.tts_call_id
    message_id := some env.message_id
    model_type := some "TTS"
    model_id := some "stub-tts"
    duration_ms := some env.tts_duration_ms
    raw_response_snippet := tts_path.map (fun p => String.take p 200)
    created_at := env.tts_call_created_at }

/-- The transcript after the optional ASR stage: ASR output for audio,
the normalized input text otherwise. -/
def pipelineTranscript (transcript0 : String) (asrSource : Option AsrSource)
    (env : PostEnv) : String :=
  match asrSource with
  | some src => run_asr src env.asr_raised
  | none => transcript0

/-- The ModelCall rows contributed by the optional ASR stage. -/
def pipelineAsrCalls (asrSource : Option AsrSource) (env : PostEnv) : List ModelCallRow :=
  match asrSource with
  | some src => [asrCallRowOf env (run_asr src env.asr_raised)]
  | none => []

/-- The Message row as committed in step 5 (reply fields filled in). -/
def messageRowOf (session_id msg_type : String) (incoming_text : Option String)
    (audio_path : Option String) (transcript llm_reply : String)
    (tts_path : Option String) (env : PostEnv) : MessageRow :=
  { id := env.message_id
    session_id := session_id
    direction := "incoming"
    type := msg_type
    text := incoming_text
    audio_path_or_b64 := audio_path
    transcript := some transcript
    reply_text := some llm_reply
    reply_audio_path_or_b64 := tts_path
    created_at := env.created_at }

/-- The summary returned to the caller, computed from the committed
Message row and locally held pipeline state only. -/
def resultOf (session_id : String) (incoming_text : Option String)
    (transcript llm_reply : String) (tts_path : Option String) (env : PostEnv) : PostResult :=
  { message_id := env.message_id
    session_id := session_id
    created_at := env.created_at
    incoming_text := incoming_text
    transcript := some transcript
    reply_text := some llm_reply
    reply_audio_path := tts_path }

/-- The CRM payload `post_message` builds for the step-6 dispatch. -/
def crmPayloadOf (session_id : String) (session_row : SessionRow)
    (transcript llm_reply : String) : MCPPayload :=
  { session_id := session_id
    customer_id := some (if session_row.customer_id = "" then "cust_demo"
                         else session_row.customer_id)
    llm_response := some llm_reply
    scenario := some "billing_query"
    crm_record := some [("name", .jstr "Asha Sharma"),
                        ("phone", .jstr "+91-98xxxxxxx"),
                        ("account_id", .jstr ("acc_" ++ String.take session_id 8)),
                        ("query", .jstr transcript),
                        ("intent", .jstr "request_refund"),
                        ("priority", .jstr "high")]
    meta := some [("model", .jstr "stub-llm"), ("confidence", .jnum (1 / 2))] }

/-- The text handed to the reply generator: the normalized input text
for text messages, the (post-ASR) transcript for audio (`or ""` in the
code is the identity on strings). -/
def pipelineUserText (msg_type : String) (incoming_text : Option String)
    (transcript0 : String) (asrSource : Option AsrSource) (env : PostEnv) : String :=
  if msg_type = "text" then incoming_text.getD ""
  else pipelineTranscript transcript0 asrSource env

/-- The store after the step-6 CRM dispatch: unchanged when the network
call itself fails (the exception is caught and logged), otherwise
whatever the in-process `mcp_handler` leaves behind (its response
status is never inspected). -/
def dispatchStore (payload : MCPPayload) (d : Dispatch) (store : Store) : Store :=
  match d with
  | .netFail _ => store
  | .delivered menv => (mcp_handler payload menv store).2

/-- The store after the step-5 commit: the Message row and all
accumulated ModelCall rows become visible together. -/
def commitStore (session_id msg_type : String) (incoming_text : Option String)
    (transcript0 : String) (audio_path : Option String) (asrSource : Option AsrSource)
    (env : PostEnv) (store : Store) : Store :=
  { store with
      messages := store.messages ++
        [messageRowOf session_id msg_type incoming_text audio_path
          (pipelineTranscript transcript0 asrSource env)
          (generate_reply (pipelineUserText msg_type incoming_text transcript0 asrSource env))
          (run_tts env.message_id env.tts_raised) env]
      model_calls := store.model_calls ++
        (pipelineAsrCalls asrSource env ++
          [llmCallRowOf env
            (generate_reply (pipelineUserText msg_type incoming_text transcript0 asrSource env)),
           ttsCallRowOf env (run_tts env.message_id env.tts_raised)]) }

/-- Steps 2–6 of the pipeline, shared by the text and audio paths: ASR
(when a source is given), reply generation, TTS, the single
Message+ModelCalls commit, and the best-effort CRM dispatch. -/
def runPipeline (session_id : String) (msg_type : String) (incoming_text : Option String)
    (transcript0 : String) (audio_path : Option String) (asrSource : Option AsrSource)
    (session_row : SessionRow) (env : PostEnv) (store : Store) :
    Except ApiError PostResult × Store :=
  match env.commit with
  | .fail e => (.error (.unhandled e), store)
  | .ok =>
    (.ok (resultOf session_id incoming_text (pipelineTranscript transcript0 asrSource env)
        (generate_reply (pipelineUserText msg_type incoming_text transcript0 asrSource env))
        (run_tts env.message_id env.tts_raised) env),
     dispatchStore
       (crmPayloadOf session_id session_row (pipelineTranscript transcript0 asrSource env)
         (generate_reply (pipelineUserText msg_type incoming_text transcript0 asrSource env)))
       env.dispatch
       (commitStore session_id msg_type incoming_text transcript0 audio_path asrSource env store))

/-- Input normalization: the incoming text (text messages only). -/
def pmIncomingText (msg : MessageReq) : Option String :=
  if msg.type = "text" then some (msg.text.getD "") else none

/-- Input normalization: the initial transcript — the supplied text
verbatim for text messages, the `"<audio_received>"` placeholder for
audio. -/
def pmTranscript0 (msg : MessageReq) : String :=
  if msg.type = "text" then msg.text.getD "" else "<audio_received>"

/-- The media-file path stored for the incoming audio: set when base64
decoding and the disk write both succeed, left unset otherwise (the
write failure is logged and non-fatal). -/
def pmAudioPath (msg : MessageReq) (env : PostEnv) : Option String :=
  if msg.type = "audio" then
    match msg.audio_base64 with
    | some b =>
      if b.valid ∧ env.audio_write_ok then
        some ("media/" ++ env.message_id ++ extOf msg.mime)
      else none
    | none => none
  else none

/-- The ASR source selection in the audio branch: the stored file path
when available, else the inline `base64.b64decode` of the payload —
which runs outside any try/except and raises uncaught on invalid
base64 — else empty bytes. -/
def pmAsrSourceE (msg : MessageReq) (env : PostEnv) : Except ApiError AsrSource :=
  match pmAudioPath msg env with
  | some p => .ok (.path p (match msg.audio_base64 with | some b => b.len | none => 0))
  | none =>
    match msg.audio_base64 with
    | some b =>
      if b.valid then .ok (.bytes b.len)
      else .error (.unhandled "binascii.Error: Invalid base64-encoded string")
    | none => .ok (.bytes 0)

/-- `post_message` from `app/api/v1/sessions.py`.  Type validation,
input normalization and the media write come first, then the session
existence check, then the stage pipeline.  In the audio ASR branch the
inline `base64.b64decode` at line 167 runs outside any try/except: if
the payload is not valid base64 the exception propagates uncaught. -/
def post_message (session_id : String) (msg : MessageReq) (env : PostEnv) (store : Store) :
    Except ApiError PostResult × Store :=
  if ¬ (msg.type = "text" ∨ msg.type = "audio") then
    (.error (.validation "type must be \x27text\x27 or \x27audio\x27"), store)
  else
    match store.sessions.find? (fun s => s.id == session_id) with
    | none => (.error (.notFound "session not found"), store)
    | some session_row =>
      if msg.type = "audio" then
        match pmAsrSourceE msg env with
        | .error e => (.error e, store)
        | .ok src =>
          runPipeline session_id msg.type (pmIncomingText msg) (pmTranscript0 msg)
            (pmAudioPath msg env) (some src) session_row env store
      else
        runPipeline session_id msg.type (pmIncomingText msg) (pmTranscript0 msg)
          (pmAudioPath msg env) none session_row env store

/-! ## Conversation accessor (`app/api/v1/sessions.py`, `get_conversation`) -/

structure ConversationResult where
  session : SessionRow
  messages : List MessageRow
  crm_records : List CRMRecordRow
  tool_calls : List ToolCallRow
  model_calls : List ModelCallRow
deriving DecidableEq

/-- Lexicographic comparison of character lists: the collation SQL
`ORDER BY` applies to the stored ASCII ISO timestamp strings. -/
def strLeb : List Char → List Char → Bool
  | [], _ => true
  | _ :: _, [] => false
  | a :: as, b :: bs => if a < b then true else if b < a then false else strLeb as bs

/-- Lexicographic order on strings, as a computable comparison. -/
def strLe (a b : String) : Bool := strLeb a.data b.data

/-- `ORDER BY created_at` on the ISO timestamp strings. -/
def sortByCreatedAt {α : Type} (created : α → String) (l : List α) : List α :=
  l.mergeSort (fun a b => strLe (created a) (created b))

/-- `get_conversation` from `app/api/v1/sessions.py`: a pure read.  The
model-calls query joins through the session's messages (`message_id`
matches the id of a message of the session; message ids are primary
keys, so the join contributes each model call at most once). -/
def get_conversation (session_id : String) (store : Store) :
    Except ApiError ConversationResult × Store :=
  match store.sessions.find? (fun s => s.id == session_id) with
  | none => (.error (.notFound "session not found"), store)
  | some session_row =>
    (.ok { session := session_row
           messages := sortByCreatedAt (fun m => m.created_at)
             (store.messages.filter (fun m => m.session_id == session_id))
           crm_records := sortByCreatedAt (fun c => c.created_at)
             (store.crm_records.filter (fun c => c.session_id == some session_id))
           tool_calls := sortByCreatedAt (fun t => t.created_at)
             (store.tool_calls.filter (fun t => t.session_id == some session_id))
           model_calls := sortByCreatedAt (fun mc => mc.created_at)
             (store.model_calls.filter (fun mc =>
               store.messages.any (fun m => mc.message_id == some m.id && m.session_id == session_id))) },
     store)

/-! ## Concrete fixtures used by witness and counterexample theorems -/

def demoSession : SessionRow :=
  { id := "s1", customer_id := "cust_123", language := "en", channel := "phone",
    persona := none, created_at := "2026-01-01T00:00:00Z" }

def demoStore : Store :=
  { sessions := [demoSession], messages := [], model_calls := [],
    crm_records := [], tool_calls := [] }

def emptyStore : Store :=
  { sessions := [], messages := [], model_calls := [], crm_records := [], tool_calls := [] }

def demoEnv : PostEnv :=
  { message_id := "m1", created_at := "2026-01-01T00:01:00Z", audio_write_ok := true,
    asr_raised := none, asr_call_id := "mc1", asr_call_created_at := "2026-01-01T00:01:01Z",
    asr_duration_ms := 5, llm_call_id := "mc2", llm_call_created_at := "2026-01-01T00:01:02Z",
    llm_duration_ms := 1, tts_raised := none, tts_call_id := "mc3",
    tts_call_created_at := "2026-01-01T00:01:03Z", tts_duration_ms := 2,
    commit := .ok, dispatch := .netFail "httpx.ConnectTimeout" }

def demoMCPEnv : MCPEnv :=
  { crm_id := "crm1", tool_id := "tc1", crm_created_at := "2026-01-01T00:02:00Z",
    tool_created_at := "2026-01-01T00:02:01Z",
    primary_commit := .ok, secondary_commit := .ok }

/-- Audio post whose supplied payload is not decodable base64. -/
def c3badMsg : MessageReq :=
  { type := "audio", text := none, audio_base64 := some { valid := false, len := 0 },
    mime := some "audio/wav" }

/-- Audio post with a decodable 4-byte payload. -/
def c3goodMsg : MessageReq :=
  { type := "audio", text := none, audio_base64 := some { valid := true, len := 4 },
    mime := some "audio/wav" }

/-- A message-post with an unrecognized type. -/
def c4badMsg : MessageReq :=
  { type := "video", text := none, audio_base64 := none, mime := none }

def c4textMsg : MessageReq :=
  { type := "text", text := some "hello", audio_base64 := none, mime := none }

def c9msg : MessageReq :=
  { type := "text", text := some "Mera bill bahut zyada aaya hai",
    audio_base64 := none, mime := none }

def c7env : PostEnv :=
  { demoEnv with commit := .fail "sqlalchemy.exc.OperationalError: disk I/O error" }

/-- Billing record missing only the `phone` key. -/
def c5record : List (String × JVal) :=
  [("name", .jstr "Asha Sharma"), ("account_id", .jstr "acc_1"), ("query", .jstr "q"),
   ("intent", .jstr "request_refund"), ("priority", .jstr "high")]

def c5payload : MCPPayload :=
  { session_id := "s1", customer_id := some "cust_123", llm_response := some "r",
    scenario := some "billing_query", crm_record := some c5record, meta := none }

/-- Billing record whose `phone` key is present but bound to `""`. -/
def c10rec : List (String × JVal) :=
  [("name", .jstr "Asha Sharma"), ("phone", .jstr ""), ("account_id", .jstr "acc_1"),
   ("query", .jstr "q"), ("intent", .jstr "request_refund"), ("priority", .jstr "high")]

def c10payload : MCPPayload :=
  { session_id := "s1", customer_id := some "cust_123", llm_response := some "r",
    scenario := some "billing_query", crm_record := some c10rec, meta := none }

/-- A fully valid billing record. -/
def c6record : List (String × JVal) :=
  [("name", .jstr "Asha Sharma"), ("phone", .jstr "+91-98xxxxxxx"),
   ("account_id", .jstr "acc_1"), ("query", .jstr "bill query"),
   ("intent", .jstr "request_refund"), ("priority", .jstr "high")]

def c6payload : MCPPayload :=
  { session_id := "s1", customer_id := some "cust_123", llm_response := some "r",
    scenario := some "billing_query", crm_record := some c6record, meta := none }

/-- Conversation fixtures: rows of two sessions, stored out of creation
order so that the ordering claim is exercised. -/
def c8msg1 : MessageRow :=
  { id := "m1", session_id := "s1", direction := "incoming", type := "text",
    text := some "hi", audio_path_or_b64 := none, transcript := some "hi",
    reply_text := some "r1", reply_audio_path_or_b64 := none,
    created_at := "2026-01-02T00:00:00Z" }

def c8msg2 : MessageRow :=
  { id := "m2", session_id := "s1", direction := "incoming", type := "text",
    text := some "yo", audio_path_or_b64 := none, transcript := some "yo",
    reply_text := some "r2", reply_audio_path_or_b64 := none,
    created_at := "2026-01-01T00:00:00Z" }

def c8msgOther : MessageRow :=
  { id := "m9", session_id := "s2", direction := "incoming", type := "text",
    text := some "other", audio_path_or_b64 := none, transcript := some "other",
    reply_text := some "r9", reply_audio_path_or_b64 := none,
    created_at := "2026-01-01T00:00:00Z" }

def c8mc1 : ModelCallRow :=
  { id := "k1", message_id := some "m1", model_type := some "LLM", model_id := none,
    duration_ms := some 1, raw_response_snippet := none,
    created_at := "2026-01-02T00:00:01Z" }

def c8mc2 : ModelCallRow :=
  { id := "k2", message_id := some "m2", model_type := some "TTS", model_id := none,
    duration_ms := some 1, raw_response_snippet := none,
    created_at := "2026-01-01T00:00:01Z" }

def c8mcOther : ModelCallRow :=
  { id := "k9", message_id := some "m9", model_type := some "LLM", model_id := none,
    duration_ms := some 1, raw_response_snippet := none,
    created_at := "2026-01-01T00:00:01Z" }

def c8crm : CRMRecordRow :=
  { id := "c1", session_id := some "s1", customer_id := some "cust_123",
    scenario := some "billing_query", record_json := none, status := some "pending",
    created_at := "2026-01-01T00:00:02Z" }

def c8tool : ToolCallRow :=
  { id := "t1", session_id := some "s1", payload_json := none,
    status := some "accepted", created_at := "2026-01-01T00:00:03Z" }

def c8store : Store :=
  { sessions := [demoSession], messages := [c8msg1, c8msg2, c8msgOther],
    model_calls := [c8mc1, c8mc2, c8mcOther], crm_records := [c8crm],
    tool_calls := [c8tool] }

/-! ## Theorems -/

/-! Containment of a keyword whose first and last characters are not
whitespace is unaffected by stripping: any occurrence must lie inside
the stripped core. -/

theorem infix_dropWhile_iff {α : Type} (p : α → Bool) (kw l : List α)
    (h : ∀ a, kw.head? = some a → p a = false) :
    kw <:+: l.dropWhile p ↔ kw <:+: l := by
  induction l with
  | nil => simp
  | cons c t ih =>
    by_cases hc : p c
    · rw [List.dropWhile_cons, if_pos hc, ih]
      constructor
      · exact fun hi => List.infix_cons hi
      · intro hi
        rcases List.infix_cons_iff.mp hi with hpre | hinf
        · cases kw with
          | nil => exact List.nil_infix
          | cons k kt =>
            rcases List.cons_prefix_cons.mp hpre with ⟨hk, _⟩
            have hk' := h k rfl
            rw [hk] at hk'
            rw [hk'] at hc
            exact absurd hc (by simp)
        · exact hinf
    · rw [List.dropWhile_cons, if_neg hc]

theorem infix_pyStrip_iff (kw l : List Char)
    (hhead : ∀ a, kw.head? = some a → pyIsSpace a = false)
    (hlast : ∀ a, kw.getLast? = some a → pyIsSpace a = false) :
    kw <:+: pyStrip l ↔ kw <:+: l := by
  unfold pyStrip
  have hrev : ∀ a, kw.reverse.head? = some a → pyIsSpace a = false := by
    intro a ha
    rw [List.head?_reverse] at ha
    exact hlast a ha
  constructor
  · intro hi
    have h1 : kw.reverse <:+: (l.dropWhile pyIsSpace).reverse.dropWhile pyIsSpace := by
      have := List.reverse_infix.mpr hi
      simpa using this
    have h2 := (infix_dropWhile_iff pyIsSpace kw.reverse _ hrev).mp h1
    have h3 : kw <:+: l.dropWhile pyIsSpace := by
      have := List.reverse_infix.mpr h2
      simpa using this
    exact (infix_dropWhile_iff pyIsSpace kw l hhead).mp h3
  · intro hi
    have h3 : kw <:+: l.dropWhile pyIsSpace :=
      (infix_dropWhile_iff pyIsSpace kw l hhead).mpr hi
    have h2 : kw.reverse <:+: (l.dropWhile pyIsSpace).reverse := by
      simpa using List.reverse_infix.mpr h3
    have h1 := (infix_dropWhile_iff pyIsSpace kw.reverse _ hrev).mpr h2
    have := List.reverse_infix.mpr h1
    simpa using this

theorem pyIn_pyStrip (kw l : List Char)
    (hhead : ∀ a, kw.head? = some a → pyIsSpace a = false)
    (hlast : ∀ a, kw.getLast? = some a → pyIsSpace a = false) :
    pyIn kw (pyStrip l) = pyIn kw l := by
  unfold pyIn
  by_cases h : kw <:+: l
  · simp [h, (infix_pyStrip_iff kw l hhead hlast).mpr h]
  · have : ¬ kw <:+: pyStrip l := fun hc => h ((infix_pyStrip_iff kw l hhead hlast).mp hc)
    simp [h, this]

theorem pyStrip_pyLower_pyIn (kw l : List Char)
    (hhead : ∀ a, kw.head? = some a → pyIsSpace a = false)
    (hlast : ∀ a, kw.getLast? = some a → pyIsSpace a = false) :
    pyIn kw (pyStrip (pyLower l)) = pyIn kw (pyLower l) :=
  pyIn_pyStrip kw (pyLower l) hhead hlast

/-- CLAIM C2. For every input string the responder returns exactly one of
four fixed messages by ordered first-match rules: blank input yields the
ask-to-repeat message; else containment of "refund" or "money back" in
the lowercased text yields the refund message; else containment of any
billing keyword yields the billing message; else the fallback.  In
particular text containing both "refund" and "bill" yields the refund
message. -/
theorem generate_reply_spec :
    (∀ s : String, generate_reply s = replySpec s ∧
      generate_reply s ∈ [msgAskRepeat, msgRefund, msgBilling, msgFallback]) ∧
    generate_reply "I want a refund of this bill" = msgRefund := by
  constructor
  · intro s
    have hblank : (s = "" ∨ pyStrip s.data = []) ↔ pyStrip s.data = [] := by
      constructor
      · rintro (h | h)
        · rw [h]; rfl
        · exact h
      · exact Or.inr
    have hrefund := pyStrip_pyLower_pyIn "refund".data s.data (by decide) (by decide)
    have hmoney := pyStrip_pyLower_pyIn "money back".data s.data (by decide) (by decide)
    have hbill := pyStrip_pyLower_pyIn "bill".data s.data (by decide) (by decide)
    have hcharge := pyStrip_pyLower_pyIn "charge".data s.data (by decide) (by decide)
    have hcharges := pyStrip_pyLower_pyIn "charges".data s.data (by decide) (by decide)
    have hamount := pyStrip_pyLower_pyIn "amount".data s.data (by decide) (by decide)
    have hinvoice := pyStrip_pyLower_pyIn "invoice".data s.data (by decide) (by decide)
    have hfees := pyStrip_pyLower_pyIn "fees".data s.data (by decide) (by decide)
    have hfee := pyStrip_pyLower_pyIn "fee".data s.data (by decide) (by decide)
    have hmain : generate_reply s = replySpec s := by
      unfold generate_reply replySpec
      simp only [hblank, billingKeywords, List.any_cons, List.any_nil,
        hrefund, hmoney, hbill, hcharge, hcharges, hamount, hinvoice, hfees, hfee]
      split
      · rfl
      · split
        · rfl
        · split
          · split
            · rfl
            · rename_i h1 h2
              exact absurd h1 (by simpa [Bool.or_assoc] using h2)
          · split
            · rename_i h1 h2
              exact absurd h2 (by simpa [Bool.or_assoc] using h1)
            · rfl
    refine ⟨hmain, ?_⟩
    rw [hmain]
    unfold replySpec
    split
    · simp
    · split
      · simp
      · split
        · simp
        · simp
  · rfl

/-! ### CRM intake handler -/

theorem mcp_handler_store_inv (payload : MCPPayload) (menv : MCPEnv) (store : Store) :
    (mcp_handler payload menv store).2.messages = store.messages ∧
    (mcp_handler payload menv store).2.model_calls = store.model_calls ∧
    (mcp_handler payload menv store).2.sessions = store.sessions := by
  unfold mcp_handler
  split
  · exact ⟨rfl, rfl, rfl⟩
  split
  · exact ⟨rfl, rfl, rfl⟩
  split
  · exact ⟨rfl, rfl, rfl⟩
  · cases menv.primary_commit with
    | ok => exact ⟨rfl, rfl, rfl⟩
    | fail e => cases menv.secondary_commit <;> exact ⟨rfl, rfl, rfl⟩

/-- CLAIM C5.  CRM intake fails with a ValidationError when the scenario
is absent; with scenario `"billing_query"` and required fields missing
it fails with a ValidationError whose detail is exactly the list of
missing required field names; in both cases the store is returned
unchanged (zero CRMRecord and zero ToolCall rows written). -/
theorem mcp_handler_validation (payload : MCPPayload) (menv : MCPEnv) (store : Store) :
    (payload.scenario = none →
      mcp_handler payload menv store = (.error .scenarioRequired, store)) ∧
    (payload.scenario = some "billing_query" →
      missingFieldsOf (payload.crm_record.getD []) ≠ [] →
      mcp_handler payload menv store =
        (.error (.missingFields (missingFieldsOf (payload.crm_record.getD []))), store)) ∧
    (∀ f, f ∈ missingFieldsOf (payload.crm_record.getD []) ↔
      f ∈ requiredBillingFields ∧ fieldTruthy (payload.crm_record.getD []) f = false) := by
  refine ⟨?_, ?_, ?_⟩
  · intro h
    unfold mcp_handler
    rw [h]
    rfl
  · intro hs hmiss
    unfold mcp_handler
    rw [hs]
    rw [if_neg (by simp [scenarioFalsy])]
    rw [if_pos ⟨rfl, hmiss⟩]
  · intro f
    simp [missingFieldsOf, List.mem_filter]

theorem mcp_handler_validation_witness :
    mcp_handler c5payload demoMCPEnv demoStore =
      (.error (.missingFields ["phone"]), demoStore) :=
  (mcp_handler_validation c5payload demoMCPEnv demoStore).2.1 rfl (by decide)

/-- CLAIM C6.  On valid input the handler persists a CRMRecord with
status "pending" and a ToolCall with status "accepted" in one atomic
commit and returns the status with both ids; on primary-commit failure
it reports a persistence error carrying the underlying storage detail
whatever the outcome of the best-effort secondary write, the secondary
write (when it lands) records the ToolCall with status flipped to
"failed", and the secondary write's own failure leaves the store
untouched and never masks the original error. -/
theorem mcp_handler_atomic_persist_and_failure_path
    (payload : MCPPayload) (menv : MCPEnv) (store : Store) (s : SessionRow)
    (hscen : scenarioFalsy payload.scenario = false)
    (hvalid : payload.scenario = some "billing_query" →
      missingFieldsOf (payload.crm_record.getD []) = [])
    (hfind : store.sessions.find? (fun r => r.id == payload.session_id) = some s) :
    (crmRowOf payload menv s).status = some "pending" ∧
    (toolRowOf payload menv).status = some "accepted" ∧
    (menv.primary_commit = .ok →
      mcp_handler payload menv store =
        (.ok { ok := true, status := some "accepted",
               crm_record_id := menv.crm_id, tool_call_id := menv.tool_id },
         { store with crm_records := store.crm_records ++ [crmRowOf payload menv s],
                      tool_calls := store.tool_calls ++ [toolRowOf payload menv] })) ∧
    (∀ e, menv.primary_commit = .fail e →
      (mcp_handler payload menv store).1 = .error (.dbError ("DB error: " ++ e)) ∧
      (menv.secondary_commit = .ok →
        (mcp_handler payload menv store).2.tool_calls =
          store.tool_calls ++ [{ toolRowOf payload menv with status := some "failed" }]) ∧
      (∀ e2, menv.secondary_commit = .fail e2 →
        (mcp_handler payload menv store).2 = store)) := by
  have hnotmiss : ¬ (payload.scenario = some "billing_query" ∧
      missingFieldsOf (payload.crm_record.getD []) ≠ []) := by
    rintro ⟨h1, h2⟩
    exact h2 (hvalid h1)
  have hred : mcp_handler payload menv store =
      (match menv.primary_commit with
       | .ok =>
         (.ok { ok := true, status := some "accepted",
                crm_record_id := menv.crm_id, tool_call_id := menv.tool_id },
          { store with crm_records := store.crm_records ++ [crmRowOf payload menv s],
                       tool_calls := store.tool_calls ++ [toolRowOf payload menv] })
       | .fail e =>
         (.error (.dbError ("DB error: " ++ e)),
          match menv.secondary_commit with
          | .ok => { store with
              crm_records := store.crm_records ++ [crmRowOf payload menv s],
              tool_calls := store.tool_calls ++
                [{ toolRowOf payload menv with status := some "failed" }] }
          | .fail _ => store)) := by
    unfold mcp_handler
    rw [if_neg (by simp [hscen])]
    rw [if_neg hnotmiss]
    rw [hfind]
  refine ⟨rfl, rfl, ?_, ?_⟩
  · intro hok
    rw [hred, hok]
  · intro e he
    rw [hred, he]
    refine ⟨rfl, ?_, ?_⟩
    · intro hsec
      rw [hsec]
    · intro e2 hsec
      rw [hsec]

theorem mcp_handler_atomic_witness :
    mcp_handler c6payload demoMCPEnv demoStore =
      (.ok { ok := true, status := some "accepted",
             crm_record_id := "crm1", tool_call_id := "tc1" },
       { demoStore with
           crm_records := demoStore.crm_records ++ [crmRowOf c6payload demoMCPEnv demoSession],
           tool_calls := demoStore.tool_calls ++ [toolRowOf c6payload demoMCPEnv] }) :=
  (mcp_handler_atomic_persist_and_failure_path c6payload demoMCPEnv demoStore demoSession
    rfl (fun _ => rfl) rfl).2.2.1 rfl

/-- CLAIM C10.  Required-field validation in the billing scenario tests
the field value's truthiness, not key presence: a field bound to a falsy
value (empty string, null, zero, false) is reported missing exactly as
if the key were absent — in particular a record with `"phone": ""`
fails validation listing `["phone"]`. -/
theorem validation_tests_truthiness_not_presence :
    (∀ (menv : MCPEnv) (store : Store) (payload : MCPPayload),
      payload.scenario = some "billing_query" → payload.crm_record = some c10rec →
      mcp_handler payload menv store = (.error (.missingFields ["phone"]), store)) ∧
    (∀ rec f v, jget rec f = some v → pyTruthy v = false → fieldTruthy rec f = false) ∧
    (∀ rec f, jget rec f = none → fieldTruthy rec f = false) ∧
    (∀ rec f, f ∈ requiredBillingFields →
      (f ∈ missingFieldsOf rec ↔ fieldTruthy rec f = false)) ∧
    pyTruthy (.jstr "") = false ∧ pyTruthy .jnull = false ∧
    pyTruthy (.jint 0) = false ∧ pyTruthy (.jbool false) = false := by
  refine ⟨?_, ?_, ?_, ?_, rfl, rfl, by decide, rfl⟩
  · intro menv store payload hscen hrec
    unfold mcp_handler
    rw [hscen, hrec]
    rw [if_neg (by simp [scenarioFalsy])]
    rw [if_pos ⟨rfl, by decide⟩]
    rfl
  · intro rec f v hget hv
    unfold fieldTruthy
    rw [hget]
    exact hv
  · intro rec f hget
    unfold fieldTruthy
    rw [hget]
  · intro rec f hf
    simp [missingFieldsOf, List.mem_filter, hf]

theorem validation_truthiness_witness :
    mcp_handler c10payload demoMCPEnv demoStore =
      (.error (.missingFields ["phone"]), demoStore) :=
  validation_tests_truthiness_not_presence.1 demoMCPEnv demoStore c10payload rfl rfl

/-! ### Message pipeline -/

theorem dispatchStore_messages (payload : MCPPayload) (d : Dispatch) (store : Store) :
    (dispatchStore payload d store).messages = store.messages := by
  cases d with
  | netFail e => rfl
  | delivered menv => exact (mcp_handler_store_inv payload menv store).1

theorem dispatchStore_model_calls (payload : MCPPayload) (d : Dispatch) (store : Store) :
    (dispatchStore payload d store).model_calls = store.model_calls := by
  cases d with
  | netFail e => rfl
  | delivered menv => exact (mcp_handler_store_inv payload menv store).2.1

theorem pmAudioPath_dispatch (msg : MessageReq) (env : PostEnv) (d : Dispatch) :
    pmAudioPath msg { env with dispatch := d } = pmAudioPath msg env := rfl

theorem pmAsrSourceE_dispatch (msg : MessageReq) (env : PostEnv) (d : Dispatch) :
    pmAsrSourceE msg { env with dispatch := d } = pmAsrSourceE msg env := rfl

theorem runPipeline_fst_dispatch (sid mt : String) (it : Option String) (t0 : String)
    (ap : Option String) (srcOpt : Option AsrSource) (s : SessionRow) (env : PostEnv)
    (d : Dispatch) (store : Store) :
    (runPipeline sid mt it t0 ap srcOpt s { env with dispatch := d } store).1 =
    (runPipeline sid mt it t0 ap srcOpt s env store).1 := by
  unfold runPipeline
  dsimp only
  cases env.commit <;> rfl

theorem runPipeline_ok (sid mt : String) (it : Option String) (t0 : String) (ap : Option String)
    (srcOpt : Option AsrSource) (s : SessionRow) (env : PostEnv) (store : Store)
    (hcommit : env.commit = .ok) :
    (runPipeline sid mt it t0 ap srcOpt s env store).1 =
      .ok (resultOf sid it (pipelineTranscript t0 srcOpt env)
        (generate_reply (pipelineUserText mt it t0 srcOpt env))
        (run_tts env.message_id env.tts_raised) env) ∧
    (runPipeline sid mt it t0 ap srcOpt s env store).2.messages =
      store.messages ++ [messageRowOf sid mt it ap (pipelineTranscript t0 srcOpt env)
        (generate_reply (pipelineUserText mt it t0 srcOpt env))
        (run_tts env.message_id env.tts_raised) env] ∧
    (runPipeline sid mt it t0 ap srcOpt s env store).2.model_calls =
      store.model_calls ++ (pipelineAsrCalls srcOpt env ++
        [llmCallRowOf env (generate_reply (pipelineUserText mt it t0 srcOpt env)),
         ttsCallRowOf env (run_tts env.message_id env.tts_raised)]) := by
  unfold runPipeline
  rw [hcommit]
  refine ⟨rfl, ?_, ?_⟩
  · rw [dispatchStore_messages]
    rfl
  · rw [dispatchStore_model_calls]
    rfl

theorem post_message_reaches_pipeline
    (session_id : String) (msg : MessageReq) (env : PostEnv) (store : Store) (s : SessionRow)
    (htype : msg.type = "text" ∨ msg.type = "audio")
    (hb64 : msg.type = "audio" → ∀ b, msg.audio_base64 = some b → b.valid = true)
    (hfind : store.sessions.find? (fun r => r.id == session_id) = some s) :
    ∃ srcOpt : Option AsrSource,
      (msg.type = "text" → srcOpt = none) ∧
      (msg.type = "audio" → ∃ src, srcOpt = some src) ∧
      post_message session_id msg env store =
        runPipeline session_id msg.type (pmIncomingText msg) (pmTranscript0 msg)
          (pmAudioPath msg env) srcOpt s env store := by
  rcases htype with ht | ht
  · refine ⟨none, fun _ => rfl, fun hc => ?_, ?_⟩
    · rw [ht] at hc
      exact absurd hc (by decide)
    · unfold post_message
      rw [if_neg (not_not_intro (Or.inl ht))]
      rw [hfind]
      dsimp only
      rw [ht]
      rw [if_neg (show ¬ (("text" : String) = "audio") by decide)]
  · have hsrc : ∃ src, pmAsrSourceE msg env = .ok src := by
      unfold pmAsrSourceE
      cases hpath : pmAudioPath msg env with
      | some p => exact ⟨_, rfl⟩
      | none =>
        cases hb : msg.audio_base64 with
        | none => exact ⟨_, rfl⟩
        | some b =>
          have hv := hb64 ht b hb
          refine ⟨.bytes b.len, ?_⟩
          dsimp only
          rw [if_pos hv]
    obtain ⟨src, hsrc⟩ := hsrc
    refine ⟨some src, fun hc => ?_, fun _ => ⟨src, rfl⟩, ?_⟩
    · rw [ht] at hc
      exact absurd hc (by decide)
    · unfold post_message
      rw [if_neg (not_not_intro (Or.inr ht))]
      rw [hfind]
      dsimp only
      rw [ht]
      rw [if_pos (show ("audio" : String) = "audio" from rfl)]
      rw [hsrc]

/-- CLAIM C1.  The result returned by a message-post does not depend on
the outcome of the step-6 CRM dispatch: for any two dispatch outcomes
(delivered, network failure, timeout) the returned value — success or
error, with all of its fields — is identical, so the dispatch outcome
can neither alter the returned summary nor turn the operation into a
failure. -/
theorem post_message_result_independent_of_dispatch
    (session_id : String) (msg : MessageReq) (env : PostEnv) (d₁ d₂ : Dispatch) (store : Store) :
    (post_message session_id msg { env with dispatch := d₁ } store).1 =
    (post_message session_id msg { env with dispatch := d₂ } store).1 := by
  have key : ∀ d : Dispatch,
      (post_message session_id msg { env with dispatch := d } store).1 =
      (post_message session_id msg env store).1 := by
    intro d
    unfold post_message
    simp only [pmAsrSourceE_dispatch, pmAudioPath_dispatch]
    repeat' split
    any_goals rfl
    all_goals exact runPipeline_fst_dispatch ..
  exact (key d₁).trans (key d₂).symm

/-- CLAIM C4 (amended: restricted to recognized message types, since
the type check runs first).  A message-post with type "text" or "audio"
whose session id resolves to no Session fails with NotFound and leaves
the store — hence every row count — unchanged; no pipeline stage output
is reflected anywhere. -/
theorem post_message_unknown_session_not_found
    (session_id : String) (msg : MessageReq) (env : PostEnv) (store : Store)
    (htype : msg.type = "text" ∨ msg.type = "audio")
    (hfind : store.sessions.find? (fun s => s.id == session_id) = none) :
    post_message session_id msg env store =
      (.error (.notFound "session not found"), store) := by
  unfold post_message
  rw [if_neg (not_not_intro htype)]
  rw [hfind]

/-- CLAIM C4 counterexample: a message-post with an unrecognized type
("video") and a session id that resolves to no Session fails with the
400 validation error, not with NotFound — the type check runs first. -/
theorem post_message_unknown_session_counterexample :
    post_message "nosuch" c4badMsg demoEnv emptyStore =
      (.error (.validation "type must be \x27text\x27 or \x27audio\x27"), emptyStore) ∧
    emptyStore.sessions.find? (fun s => s.id == "nosuch") = none := ⟨rfl, rfl⟩

theorem post_message_unknown_session_witness :
    post_message "nosuch" c4textMsg demoEnv emptyStore =
      (.error (.notFound "session not found"), emptyStore) :=
  post_message_unknown_session_not_found "nosuch" c4textMsg demoEnv emptyStore (Or.inl rfl) rfl

/-- CLAIM C7 (amended).  The Message row and all accumulated ModelCall
rows are written as a single atomic unit: on commit failure the store is
returned unchanged (no partial rows visible) — but the operation then
fails by propagating the raw storage exception uncaught rather than
with a structured PersistenceError (the commit in `post_message` has no
try/except, unlike the one in `mcp_handler`). -/
theorem post_message_commit_failure_unhandled
    (session_id : String) (msg : MessageReq) (env : PostEnv) (store : Store)
    (s : SessionRow) (e : String)
    (htype : msg.type = "text" ∨ msg.type = "audio")
    (hb64 : msg.type = "audio" → ∀ b, msg.audio_base64 = some b → b.valid = true)
    (hfind : store.sessions.find? (fun r => r.id == session_id) = some s)
    (hcommit : env.commit = .fail e) :
    post_message session_id msg env store = (.error (.unhandled e), store) ∧
    ApiError.isStructured (.unhandled e) = false := by
  refine ⟨?_, rfl⟩
  obtain ⟨srcOpt, -, -, heq⟩ :=
    post_message_reaches_pipeline session_id msg env store s htype hb64 hfind
  rw [heq]
  unfold runPipeline
  rw [hcommit]

/-- CLAIM C7 counterexample: with a failing step-5 commit the operation
does not fail with a structured PersistenceError — the raw storage
exception propagates out of the handler uncaught (the store is left
unchanged, so the atomicity half of the claim does hold). -/
theorem post_message_commit_failure_counterexample :
    (post_message "s1" c4textMsg c7env demoStore).1 =
      .error (.unhandled "sqlalchemy.exc.OperationalError: disk I/O error") ∧
    ApiError.isStructured
      (.unhandled "sqlalchemy.exc.OperationalError: disk I/O error") = false ∧
    (post_message "s1" c4textMsg c7env demoStore).2 = demoStore := ⟨rfl, rfl, rfl⟩

theorem post_message_commit_failure_witness :
    post_message "s1" c4textMsg c7env demoStore =
      (.error (.unhandled "sqlalchemy.exc.OperationalError: disk I/O error"), demoStore) ∧
    ApiError.isStructured
      (.unhandled "sqlalchemy.exc.OperationalError: disk I/O error") = false :=
  post_message_commit_failure_unhandled "s1" c4textMsg c7env demoStore demoSession
    "sqlalchemy.exc.OperationalError: disk I/O error"
    (Or.inl rfl) (fun h => absurd h (by decide)) rfl rfl

/-- CLAIM C9.  A text message-post to an existing session whose commit
succeeds persists and returns a transcript equal to the supplied text
verbatim (transcript = incoming text), and appends exactly two
ModelCall rows — one LLM and one TTS, in that order, both for this
message — and zero ASR rows. -/
theorem post_message_text_verbatim_and_calls
    (session_id : String) (msg : MessageReq) (env : PostEnv) (store : Store) (s : SessionRow)
    (htype : msg.type = "text")
    (hfind : store.sessions.find? (fun r => r.id == session_id) = some s)
    (hcommit : env.commit = .ok) :
    ∃ (r : PostResult) (mrow : MessageRow) (lrow trow : ModelCallRow),
      (post_message session_id msg env store).1 = .ok r ∧
      r.incoming_text = some (msg.text.getD "") ∧
      r.transcript = some (msg.text.getD "") ∧
      r.transcript = r.incoming_text ∧
      (post_message session_id msg env store).2.messages = store.messages ++ [mrow] ∧
      mrow.transcript = some (msg.text.getD "") ∧
      (post_message session_id msg env store).2.model_calls =
        store.model_calls ++ [lrow, trow] ∧
      lrow.model_type = some "LLM" ∧ trow.model_type = some "TTS" ∧
      lrow.message_id = some env.message_id ∧ trow.message_id = some env.message_id := by
  obtain ⟨srcOpt, hnone, -, heq⟩ :=
    post_message_reaches_pipeline session_id msg env store s (Or.inl htype)
      (fun hc => absurd (htype.symm.trans hc)
        (show ¬ (("text" : String) = "audio") by decide))
      hfind
  have hsrc := hnone htype
  subst hsrc
  have hok := runPipeline_ok session_id msg.type (pmIncomingText msg) (pmTranscript0 msg)
    (pmAudioPath msg env) none s env store hcommit
  refine ⟨resultOf session_id (pmIncomingText msg)
      (pipelineTranscript (pmTranscript0 msg) none env)
      (generate_reply (pipelineUserText msg.type (pmIncomingText msg) (pmTranscript0 msg) none env))
      (run_tts env.message_id env.tts_raised) env,
    messageRowOf session_id msg.type (pmIncomingText msg) (pmAudioPath msg env)
      (pipelineTranscript (pmTranscript0 msg) none env)
      (generate_reply (pipelineUserText msg.type (pmIncomingText msg) (pmTranscript0 msg) none env))
      (run_tts env.message_id env.tts_raised) env,
    llmCallRowOf env
      (generate_reply (pipelineUserText msg.type (pmIncomingText msg) (pmTranscript0 msg) none env)),
    ttsCallRowOf env (run_tts env.message_id env.tts_raised),
    ?_, ?_, ?_, ?_, ?_, ?_, ?_, rfl, rfl, rfl, rfl⟩
  · rw [heq]
    exact hok.1
  · simp [resultOf, pmIncomingText, htype]
  · simp [resultOf, pipelineTranscript, pmTranscript0, htype]
  · simp [resultOf, pipelineTranscript, pmTranscript0, pmIncomingText, htype]
  · rw [heq]
    exact hok.2.1
  · simp [messageRowOf, pipelineTranscript, pmTranscript0, htype]
  · rw [heq]
    have h := hok.2.2
    simpa [pipelineAsrCalls] using h

theorem post_message_text_witness :
    ∃ (r : PostResult) (mrow : MessageRow) (lrow trow : ModelCallRow),
      (post_message "s1" c9msg demoEnv demoStore).1 = .ok r ∧
      r.incoming_text = some (c9msg.text.getD "") ∧
      r.transcript = some (c9msg.text.getD "") ∧
      r.transcript = r.incoming_text ∧
      (post_message "s1" c9msg demoEnv demoStore).2.messages = demoStore.messages ++ [mrow] ∧
      mrow.transcript = some (c9msg.text.getD "") ∧
      (post_message "s1" c9msg demoEnv demoStore).2.model_calls =
        demoStore.model_calls ++ [lrow, trow] ∧
      lrow.model_type = some "LLM" ∧ trow.model_type = some "TTS" ∧
      lrow.message_id = some demoEnv.message_id ∧ trow.message_id = some demoEnv.message_id :=
  post_message_text_verbatim_and_calls "s1" c9msg demoEnv demoStore demoSession rfl rfl rfl

/-- CLAIM C3 (amended: an audio payload that is not valid base64 makes
the inline decode at sessions.py:167 raise uncaught before any row is
created, and a failing step-5 commit leaves no row visible; both
conditions are therefore assumed).  An audio message-post to an
existing session whose supplied payload (if any) decodes and whose
commit succeeds appends exactly three ModelCall rows — ASR, LLM, TTS in
that creation order, all for this message — regardless of the ASR/TTS
stage outcomes, which are caught and mapped to fallback values. -/
theorem post_message_audio_three_model_calls
    (session_id : String) (msg : MessageReq) (env : PostEnv) (store : Store) (s : SessionRow)
    (htype : msg.type = "audio")
    (hb64 : ∀ b, msg.audio_base64 = some b → b.valid = true)
    (hfind : store.sessions.find? (fun r => r.id == session_id) = some s)
    (hcommit : env.commit = .ok) :
    ∃ (arow lrow trow : ModelCallRow),
      (post_message session_id msg env store).2.model_calls =
        store.model_calls ++ [arow, lrow, trow] ∧
      arow.model_type = some "ASR" ∧ lrow.model_type = some "LLM" ∧
      trow.model_type = some "TTS" ∧
      arow.message_id = some env.message_id ∧ lrow.message_id = some env.message_id ∧
      trow.message_id = some env.message_id := by
  obtain ⟨srcOpt, -, hsome, heq⟩ :=
    post_message_reaches_pipeline session_id msg env store s (Or.inr htype)
      (fun _ => hb64) hfind
  obtain ⟨src, hsrc⟩ := hsome htype
  subst hsrc
  have hok := runPipeline_ok session_id msg.type (pmIncomingText msg) (pmTranscript0 msg)
    (pmAudioPath msg env) (some src) s env store hcommit
  refine ⟨asrCallRowOf env (run_asr src env.asr_raised),
    llmCallRowOf env
      (generate_reply (pipelineUserText msg.type (pmIncomingText msg) (pmTranscript0 msg)
        (some src) env)),
    ttsCallRowOf env (run_tts env.message_id env.tts_raised),
    ?_, rfl, rfl, rfl, rfl, rfl, rfl⟩
  rw [heq]
  have h := hok.2.2
  simpa [pipelineAsrCalls] using h

/-- CLAIM C3 counterexample: an audio message-post to an existing
session with an undecodable base64 payload fails before any ModelCall
row is created (the inline decode raises uncaught), and one with a
failing step-5 commit leaves zero ModelCall rows visible — in neither
run are three rows created. -/
theorem post_message_audio_counterexample :
    post_message "s1" c3badMsg demoEnv demoStore =
      (.error (.unhandled "binascii.Error: Invalid base64-encoded string"), demoStore) ∧
    c3badMsg.type = "audio" ∧
    demoStore.sessions.find? (fun r => r.id == "s1") = some demoSession ∧
    demoStore.model_calls = [] ∧
    (post_message "s1" c3goodMsg c7env demoStore).2 = demoStore :=
  ⟨rfl, rfl, rfl, rfl, rfl⟩

theorem post_message_audio_witness :
    ∃ (arow lrow trow : ModelCallRow),
      (post_message "s1" c3goodMsg demoEnv demoStore).2.model_calls =
        demoStore.model_calls ++ [arow, lrow, trow] ∧
      arow.model_type = some "ASR" ∧ lrow.model_type = some "LLM" ∧
      trow.model_type = some "TTS" ∧
      arow.message_id = some demoEnv.message_id ∧
      lrow.message_id = some demoEnv.message_id ∧
      trow.message_id = some demoEnv.message_id :=
  post_message_audio_three_model_calls "s1" c3goodMsg demoEnv demoStore demoSession rfl
    (fun b hb => by cases hb; rfl) rfl rfl

/-! ### Conversation accessor -/

theorem strLeb_cons (a b : Char) (as bs : List Char) :
    strLeb (a :: as) (b :: bs) = true ↔ a < b ∨ (a = b ∧ strLeb as bs = true) := by
  show (if a < b then true else if b < a then false else strLeb as bs) = true ↔ _
  by_cases h1 : a < b
  · simp [h1]
  · by_cases h2 : b < a
    · have hne : a ≠ b := fun h => absurd (h ▸ h2) (lt_irrefl a)
      simp [h1, h2, hne]
    · have hab : a = b := le_antisymm (not_lt.mp h2) (not_lt.mp h1)
      rw [if_neg h1, if_neg h2]
      simp [hab]

theorem strLeb_total (as : List Char) : ∀ bs, strLeb as bs || strLeb bs as := by
  induction as with
  | nil => intro bs; simp [strLeb]
  | cons a as ih =>
    intro bs
    cases bs with
    | nil => simp [strLeb]
    | cons b bs =>
      rcases lt_trichotomy a b with h | h | h
      · simp [strLeb_cons, h]
      · subst h
        rcases Bool.or_eq_true_iff.mp (ih bs) with h | h
        · simp [strLeb_cons, h]
        · have : strLeb (a :: bs) (a :: as) = true := by simp [strLeb_cons, h]
          simp [this]
      · have : strLeb (b :: bs) (a :: as) = true := by simp [strLeb_cons, h]
        simp [this]

theorem strLeb_trans (as : List Char) :
    ∀ bs cs, strLeb as bs = true → strLeb bs cs = true → strLeb as cs = true := by
  induction as with
  | nil => intro bs cs _ _; rfl
  | cons a as ih =>
    intro bs cs hab hbc
    cases bs with
    | nil => exact absurd hab (by simp [strLeb])
    | cons b bs =>
      cases cs with
      | nil => exact absurd hbc (by simp [strLeb])
      | cons c cs =>
        rcases (strLeb_cons a b as bs).mp hab with h1 | ⟨h1, tl1⟩ <;>
          rcases (strLeb_cons b c bs cs).mp hbc with h2 | ⟨h2, tl2⟩
        · exact (strLeb_cons a c as cs).mpr (Or.inl (lt_trans h1 h2))
        · exact (strLeb_cons a c as cs).mpr (Or.inl (h2 ▸ h1))
        · exact (strLeb_cons a c as cs).mpr (Or.inl (h1 ▸ h2))
        · exact (strLeb_cons a c as cs).mpr (Or.inr ⟨h1.trans h2, ih bs cs tl1 tl2⟩)

theorem sortByCreatedAt_perm {α : Type} (created : α → String) (l : List α) :
    (sortByCreatedAt created l).Perm l :=
  List.mergeSort_perm l _

theorem sortByCreatedAt_sorted {α : Type} (created : α → String) (l : List α) :
    (sortByCreatedAt created l).Pairwise
      (fun a b => strLe (created a) (created b) = true) := by
  apply List.sorted_mergeSort
  · intro a b c hab hbc
    exact strLeb_trans _ _ _ hab hbc
  · intro a b
    exact strLeb_total _ _

/-- CLAIM C8.  `get_conversation` fails with NotFound when the session
does not exist; otherwise it returns the session together with the
messages, CRM records and tool calls filtered by that session id and
the model calls filtered transitively through the session's messages,
each collection ordered by creation time ascending — and in every case
it returns the store unchanged (no mutation). -/
theorem get_conversation_spec (session_id : String) (store : Store) :
    (store.sessions.find? (fun s => s.id == session_id) = none →
      get_conversation session_id store =
        (.error (.notFound "session not found"), store)) ∧
    (∀ s, store.sessions.find? (fun r => r.id == session_id) = some s →
      (get_conversation session_id store).2 = store ∧
      ∃ r, (get_conversation session_id store).1 = .ok r ∧
        r.session = s ∧
        r.messages.Perm (store.messages.filter (fun m => m.session_id == session_id)) ∧
        r.messages.Pairwise (fun a b => strLe a.created_at b.created_at = true) ∧
        r.crm_records.Perm
          (store.crm_records.filter (fun c => c.session_id == some session_id)) ∧
        r.crm_records.Pairwise (fun a b => strLe a.created_at b.created_at = true) ∧
        r.tool_calls.Perm
          (store.tool_calls.filter (fun t => t.session_id == some session_id)) ∧
        r.tool_calls.Pairwise (fun a b => strLe a.created_at b.created_at = true) ∧
        r.model_calls.Perm (store.model_calls.filter (fun mc =>
          store.messages.any (fun m => mc.message_id == some m.id &&
            m.session_id == session_id))) ∧
        r.model_calls.Pairwise (fun a b => strLe a.created_at b.created_at = true)) := by
  constructor
  · intro h
    unfold get_conversation
    rw [h]
  · intro s hfind
    unfold get_conversation
    rw [hfind]
    refine ⟨rfl, _, rfl, rfl, ?_, ?_, ?_, ?_, ?_, ?_, ?_, ?_⟩
    all_goals first
      | exact sortByCreatedAt_perm _ _
      | exact sortByCreatedAt_sorted _ _

theorem get_conversation_witness :
    (get_conversation "s1" c8store).2 = c8store ∧
    ∃ r, (get_conversation "s1" c8store).1 = .ok r ∧
      r.session = demoSession ∧
      r.messages.Perm (c8store.messages.filter (fun m => m.session_id == "s1")) ∧
      r.messages.Pairwise (fun a b => strLe a.created_at b.created_at = true) ∧
      r.crm_records.Perm (c8store.crm_records.filter (fun c => c.session_id == some "s1")) ∧
      r.crm_records.Pairwise (fun a b => strLe a.created_at b.created_at = true) ∧
      r.tool_calls.Perm (c8store.tool_calls.filter (fun t => t.session_id == some "s1")) ∧
      r.tool_calls.Pairwise (fun a b => strLe a.created_at b.created_at = true) ∧
      r.model_calls.Perm (c8store.model_calls.filter (fun mc =>
        c8store.messages.any (fun m => mc.message_id == some m.id &&
          m.session_id == "s1"))) ∧
      r.model_calls.Pairwise (fun a b => strLe a.created_at b.created_at = true) :=
  (get_conversation_spec "s1" c8store).2 demoSession rfl

end Voxloom
